import Mathlib

/-!
Verification of the SRAM compiler repository.

The repository ships the orchestration script `compile.py`; the estimation
engine and RTL generator (`SRAMCompiler`) that it imports are specified in the
natural-language specification, so those parts are modelled here from the
spec's formulas, while `create_config_file`, `generate_comparison_report` and
the single-configuration path of `main` are embedded from `compile.py` itself.
All real-valued quantities are modelled as rationals.
-/

namespace SRAM

/-- Per-process-node constant table entry: unit bit-cell area (mm² per bit),
leakage density (mW per mm² per V), switching-capacitance density, base access
time and cycle margin (ns), and the supported voltage range (V). -/
structure NodeParams where
  unit_bitcell_area : ℚ
  leakage_density : ℚ
  cap_density : ℚ
  base_access : ℚ
  margin : ℚ
  vmin : ℚ
  vmax : ℚ
deriving DecidableEq

/-- Modelled from the spec: the supported-node table of the missing
`SRAMCompiler` core, an explicit lookup structure keyed by process node. -/
def nodeParams : ℕ → NodeParams
  | 7 => ⟨1/100000000, 8/10, 3/1000000, 4/10, 1/10, 5/10, 8/10⟩
  | 14 => ⟨3/100000000, 6/10, 4/1000000, 5/10, 1/10, 55/100, 9/10⟩
  | 22 => ⟨6/100000000, 5/10, 5/1000000, 6/10, 15/100, 6/10, 9/10⟩
  | 28 => ⟨1/10000000, 4/10, 6/1000000, 7/10, 15/100, 6/10, 105/100⟩
  | 45 => ⟨25/100000000, 3/10, 8/1000000, 9/10, 2/10, 7/10, 11/10⟩
  | 65 => ⟨5/10000000, 2/10, 1/100000, 11/10, 2/10, 9/10, 12/10⟩
  | _ => ⟨0, 0, 0, 0, 0, 0, 0⟩

/-- Whether a process node is a key of the supported-node table. -/
def supportedNode (n : ℕ) : Bool :=
  n = 7 || n = 14 || n = 22 || n = 28 || n = 45 || n = 65

/-- Modelled from the spec: the immutable, validated configuration of one SRAM
instance (the `SRAMConfiguration` value of the missing core). -/
structure SRAMConfiguration where
  depth : ℕ
  width : ℕ
  banks : ℕ
  voltage : ℚ
  process_node : ℕ
  power_gating : Bool
  clock_gating : Bool
  retention_mode : Bool
  ecc_enable : Bool
deriving DecidableEq

/-- Raw input to configuration construction: a mapping of named fields, each
possibly missing. -/
structure RawConfig where
  depth : Option ℕ
  width : Option ℕ
  banks : Option ℕ
  voltage : Option ℚ
  process_node : Option ℕ
  power_gating : Option Bool
  clock_gating : Option Bool
  retention_mode : Option Bool
  ecc_enable : Option Bool
deriving DecidableEq

/-- The configuration-construction error taxonomy of the spec. -/
inductive ConfigurationError where
  | missingField
  | nonPositiveField
  | banksExceedDepth
  | unsupportedNode
deriving DecidableEq

/-- The timing estimator's out-of-validated-range error. -/
inductive ModelRangeError where
  | modelRange
deriving DecidableEq

/-- The power estimator's activity-factor error. -/
inductive InvalidActivityFactorError where
  | invalidActivityFactor
deriving DecidableEq

/-- The invariants a constructed configuration satisfies. -/
def validConfig (c : SRAMConfiguration) : Prop :=
  1 ≤ c.depth ∧ 1 ≤ c.width ∧ 1 ≤ c.banks ∧ c.banks ≤ c.depth ∧
    0 < c.voltage ∧ supportedNode c.process_node = true

instance (c : SRAMConfiguration) : Decidable (validConfig c) := by
  unfold validConfig; infer_instance

/-- Modelled from the spec: construction of the missing core's configuration
from a mapping of named fields, failing fast with a `ConfigurationError` on a
missing field, a non-positive numeric field, `banks > depth`, or an
unsupported `process_node`. -/
def mkConfiguration (r : RawConfig) : Except ConfigurationError SRAMConfiguration :=
  if h : r.depth.isSome ∧ r.width.isSome ∧ r.banks.isSome ∧ r.voltage.isSome ∧
      r.process_node.isSome ∧ r.power_gating.isSome ∧ r.clock_gating.isSome ∧
      r.retention_mode.isSome ∧ r.ecc_enable.isSome then
    if r.depth.get h.1 = 0 ∨ r.width.get h.2.1 = 0 ∨ r.banks.get h.2.2.1 = 0 then
      .error .nonPositiveField
    else if r.voltage.get h.2.2.2.1 ≤ 0 then .error .nonPositiveField
    else if r.depth.get h.1 < r.banks.get h.2.2.1 then .error .banksExceedDepth
    else if supportedNode (r.process_node.get h.2.2.2.2.1) = false then .error .unsupportedNode
    else .ok ⟨r.depth.get h.1, r.width.get h.2.1, r.banks.get h.2.2.1,
      r.voltage.get h.2.2.2.1, r.process_node.get h.2.2.2.2.1,
      r.power_gating.get h.2.2.2.2.2.1, r.clock_gating.get h.2.2.2.2.2.2.1,
      r.retention_mode.get h.2.2.2.2.2.2.2.1, r.ecc_enable.get h.2.2.2.2.2.2.2.2⟩
  else .error .missingField

/-- Modelled from the spec: the area estimate record of the missing core. -/
structure AreaEstimate where
  bitcell_area_mm2 : ℚ
  periphery_area_mm2 : ℚ
  total_area_mm2 : ℚ
  area_efficiency : ℚ
deriving DecidableEq

/-- Modelled from the spec: the timing estimate record of the missing core. -/
structure TimingEstimate where
  access_time_ns : ℚ
  cycle_time_ns : ℚ
  max_frequency_mhz : ℚ
deriving DecidableEq

/-- Modelled from the spec: the power estimate record of the missing core. -/
structure PowerEstimate where
  dynamic_power_mw : ℚ
  static_power_mw : ℚ
  total_power_mw : ℚ
  retention_power_uw : ℚ
deriving DecidableEq

/-- Bit-cell array area: `depth * width * unit_bitcell_area(process_node)`. -/
def bitcellArea (c : SRAMConfiguration) : ℚ :=
  ((c.depth * c.width : ℕ) : ℚ) * (nodeParams c.process_node).unit_bitcell_area

/-- Modelled from the spec: the multiplicative periphery overhead factor,
increasing sub-linearly in `banks` and increasing when `ecc_enable` is set
(check-bit columns proportional to the word width). -/
def peripheryFactor (c : SRAMConfiguration) : ℚ :=
  3/10 + (1/5) * (1 - 1/(c.banks : ℚ)) +
    (if c.ecc_enable then ((Nat.log2 c.width + 1 : ℕ) : ℚ) / (c.width : ℚ) else 0)

/-- Modelled from the spec: the missing core's `estimate_area`. Total area is
bit-cell area plus periphery area; efficiency is bit-cell over total. -/
def estimate_area (c : SRAMConfiguration) : AreaEstimate :=
  let bitcell := bitcellArea c
  let periphery := bitcell * peripheryFactor c
  { bitcell_area_mm2 := bitcell
    periphery_area_mm2 := periphery
    total_area_mm2 := bitcell + periphery
    area_efficiency := bitcell / (bitcell + periphery) }

/-- Modelled from the spec: access time, a per-node base plus a term in
`sqrt(depth/banks)` plus a term inversely proportional to voltage. -/
def accessTime (c : SRAMConfiguration) : ℚ :=
  (nodeParams c.process_node).base_access +
    (1/10) * ((Nat.sqrt (c.depth / c.banks) : ℕ) : ℚ) + (2/10) / c.voltage

/-- Modelled from the spec: cycle time, access time plus a per-node margin
plus a fixed ECC pipeline penalty. -/
def cycleTime (c : SRAMConfiguration) : ℚ :=
  accessTime c + (nodeParams c.process_node).margin + (if c.ecc_enable then 2/10 else 0)

/-- Modelled from the spec: maximum frequency, `1000 / cycle_time_ns` MHz. -/
def maxFrequency (c : SRAMConfiguration) : ℚ :=
  1000 / cycleTime c

/-- Modelled from the spec: the missing core's `estimate_timing`, refusing
with a `ModelRangeError` when the voltage is outside the node's range. -/
def estimate_timing (c : SRAMConfiguration) : Except ModelRangeError TimingEstimate :=
  if c.voltage < (nodeParams c.process_node).vmin ∨
      (nodeParams c.process_node).vmax < c.voltage then
    .error .modelRange
  else
    .ok { access_time_ns := accessTime c
          cycle_time_ns := cycleTime c
          max_frequency_mhz := maxFrequency c }

/-- Nominal (pre-power-gating) static power: leakage density times total area
times voltage. -/
def nominalStatic (c : SRAMConfiguration) : ℚ :=
  (nodeParams c.process_node).leakage_density * (estimate_area c).total_area_mm2 * c.voltage

/-- Modelled from the spec: dynamic power, the switched-capacitance law with
switched capacitance scaling in `width * banks`, frequency from the timing
model, and a fixed clock-gating idle-suppression factor. -/
def dynPower (c : SRAMConfiguration) (activity_factor : ℚ) : ℚ :=
  (nodeParams c.process_node).cap_density * ((c.width * c.banks : ℕ) : ℚ) *
    c.voltage ^ 2 * maxFrequency c * activity_factor * (if c.clock_gating then 6/10 else 1)

/-- Modelled from the spec: static power, nominal leakage scaled by a fixed
power-gating suppression factor. -/
def statPower (c : SRAMConfiguration) : ℚ :=
  nominalStatic c * (if c.power_gating then 3/10 else 1)

/-- Modelled from the spec: retention power in microwatts, a small fixed
fraction of nominal static power when retention is enabled, an explicit zero
otherwise. -/
def retPower (c : SRAMConfiguration) : ℚ :=
  if c.retention_mode then (1/100) * nominalStatic c * 1000 else 0

/-- Modelled from the spec: the missing core's `estimate_power`. Fails with
`InvalidActivityFactorError` exactly when the activity factor is outside
`[0,1]`; total power is dynamic plus static. -/
def estimate_power (c : SRAMConfiguration) (activity_factor : ℚ) :
    Except InvalidActivityFactorError PowerEstimate :=
  if activity_factor < 0 ∨ 1 < activity_factor then .error .invalidActivityFactor
  else
    .ok { dynamic_power_mw := dynPower c activity_factor
          static_power_mw := statPower c
          total_power_mw := dynPower c activity_factor + statPower c
          retention_power_uw := retPower c }

/-- The default activity factor used when the caller supplies none. -/
def defaultActivityFactor : ℚ := 1/10

/-- A named hardware-description text artifact. -/
structure Artifact where
  name : String
  content : String
deriving DecidableEq

/-- Modelled from the spec: the artifact set of the missing core's RTL
generator, a deterministic function of the configuration alone: a top-level
module plus optional power-gating, clock-gating, retention and ECC units. -/
def genArtifacts (c : SRAMConfiguration) : List Artifact :=
  let d := c.depth
  let w := c.width
  let b := c.banks
  let aw := Nat.clog 2 c.depth
  let base := s!"sram_{d}x{w}"
  [⟨base ++ ".v", s!"module {base} #(ADDR_W={aw}, DATA_W={w}, BANKS={b}) (clk, we, addr, wdata, rdata);"⟩] ++
    (if c.power_gating then [⟨base ++ "_pg_wrapper.v", s!"module {base}_pg_wrapper (clk, sleep_n, we, addr, wdata, rdata);"⟩] else []) ++
    (if c.clock_gating then [⟨base ++ "_cg.v", s!"module {base}_cg (clk, clk_en, gated_clk);"⟩] else []) ++
    (if c.retention_mode then [⟨base ++ "_retention_ctrl.v", s!"module {base}_retention_ctrl (clk, ret_en, bias_en);"⟩] else []) ++
    (if c.ecc_enable then [⟨base ++ "_ecc.v", s!"module {base}_ecc (wdata, enc_out, rdata_raw, rdata_corr, err_corr, err_uncorr);"⟩] else [])

/-- Modelled from the spec: the missing core's `generate_verilog`, writing the
configuration-determined artifact set under the destination directory and
returning the written paths with their artifacts. -/
def generate_verilog (c : SRAMConfiguration) (dest : String) : List (String × Artifact) :=
  (genArtifacts c).map (fun a => (dest ++ "/" ++ a.name, a))

/-- The configuration template store: `none` models a missing
`sram_configs.json` file, `some ts` models its named example configurations. -/
abbrev Templates : Type := Option (List (String × RawConfig))

/-- Lookup of a named template, `none` when the template file is missing or
the name is not among the templates. -/
def rawOf (tmpl : Templates) (name : String) : Option RawConfig :=
  tmpl.bind (fun ts => ts.lookup name)

/-- Embedding of `create_config_file` of `compile.py`: returns the path of the
written per-configuration file, or `none` (after printing) when the template
file is missing or the name is not found. -/
def create_config_file (tmpl : Templates) (config_name : String) (output_dir : String) :
    Option String :=
  (rawOf tmpl config_name).map (fun _ => output_dir ++ "/" ++ config_name ++ "_config.json")

/-- Any error surfaced by the orchestration layer. -/
inductive MainError where
  | configError (e : ConfigurationError)
  | modelError (e : ModelRangeError)
  | powerError (e : InvalidActivityFactorError)
deriving DecidableEq

/-- One entry of the comparison report. -/
structure ComparisonEntry where
  config_name : String
  power : PowerEstimate
  area : AreaEstimate
  timing : TimingEstimate
deriving DecidableEq

/-- One loop body of `generate_comparison_report`: construct the compiler from
the template and run the three estimators. -/
def buildEntry (name : String) (raw : RawConfig) : Except MainError ComparisonEntry :=
  match mkConfiguration raw with
  | .error e => .error (.configError e)
  | .ok cfg =>
    match estimate_power cfg defaultActivityFactor with
    | .error e => .error (.powerError e)
    | .ok pw =>
      match estimate_timing cfg with
      | .error e => .error (.modelError e)
      | .ok tm => .ok ⟨name, pw, estimate_area cfg, tm⟩

/-- Embedding of `generate_comparison_report` of `compile.py`: names whose
template is missing are skipped via the `continue`; any estimator or
construction error on a present template propagates. -/
def generate_comparison_report (tmpl : Templates) : List String → Except MainError (List ComparisonEntry)
  | [] => .ok []
  | n :: ns =>
    match rawOf tmpl n with
    | none => generate_comparison_report tmpl ns
    | some raw =>
      match buildEntry n raw with
      | .error e => .error e
      | .ok entry =>
        match generate_comparison_report tmpl ns with
        | .error e => .error e
        | .ok es => .ok (entry :: es)

/-- The entries `generate_comparison_report` produces when every present
template succeeds. -/
def expectedEntries (tmpl : Templates) (names : List String) : List ComparisonEntry :=
  names.filterMap (fun n => (rawOf tmpl n).bind (fun raw => (buildEntry n raw).toOption))

/-- The `--config` argument of `main`: either a direct `.json` file path (with
the raw configuration it holds) or a template name. -/
inductive ConfigArg where
  | file (path : String) (raw : RawConfig)
  | template (name : String)

/-- Resolution of the `--config` argument in `main`: a `.json` path is used
directly, otherwise `create_config_file` materialises the named template
(writing `<name>_config.json`); `none` means `main` returned early. -/
def resolveConfig (tmpl : Templates) (output_dir : String) :
    ConfigArg → Option (String × RawConfig × List String)
  | .file p raw => some (p, raw, [])
  | .template n =>
    (rawOf tmpl n).map (fun raw => (n, raw, [output_dir ++ "/" ++ n ++ "_config.json"]))

/-- Embedding of the single-configuration path of `main` in `compile.py`:
returns the list of files written, in order, paired with the error that
aborted the run, if any. The design report `<config>_report.md` is written
last, after the optional Verilog, power-analysis and area-analysis stages. -/
def mainSingle (tmpl : Templates) (arg : ConfigArg) (output_dir : String)
    (gen_verilog power_analysis area_analysis : Bool) : List String × Option MainError :=
  match resolveConfig tmpl output_dir arg with
  | none => ([], none)
  | some (cfgStr, raw, created) =>
    match mkConfiguration raw with
    | .error e => (created, some (.configError e))
    | .ok cfg =>
      if power_analysis ∧
          ([(1:ℚ)/100, 5/100, 1/10, 2/10, 1/2].all
            (fun a => (estimate_power cfg a).isOk)) = false then
        (created ++
            (if gen_verilog then (generate_verilog cfg (output_dir ++ "/verilog")).map Prod.fst
              else []),
          some (.powerError .invalidActivityFactor))
      else
        match area_analysis, estimate_timing cfg with
        | true, .error e =>
          (created ++
              (if gen_verilog then (generate_verilog cfg (output_dir ++ "/verilog")).map Prod.fst
                else []) ++
              (if power_analysis then [output_dir ++ "/power_analysis.json"] else []),
            some (.modelError e))
        | _, _ =>
          (created ++
              (if gen_verilog then (generate_verilog cfg (output_dir ++ "/verilog")).map Prod.fst
                else []) ++
              (if power_analysis then [output_dir ++ "/power_analysis.json"] else []) ++
              (if area_analysis then [output_dir ++ "/area_timing_analysis.json"] else []) ++
              [output_dir ++ "/" ++ cfgStr ++ "_report.md"], none)

/-- The power estimate record produced on an in-range activity factor. -/
def powerRecord (c : SRAMConfiguration) (af : ℚ) : PowerEstimate :=
  { dynamic_power_mw := dynPower c af
    static_power_mw := statPower c
    total_power_mw := dynPower c af + statPower c
    retention_power_uw := retPower c }

/-- The timing estimate record produced on an in-range voltage. -/
def timingRecord (c : SRAMConfiguration) : TimingEstimate :=
  { access_time_ns := accessTime c
    cycle_time_ns := cycleTime c
    max_frequency_mhz := maxFrequency c }

/-- A small valid 28 nm configuration used as a concrete test vector. -/
def cfg1 : SRAMConfiguration := ⟨64, 8, 2, 1, 28, false, false, false, false⟩

/-- The raw field mapping of `cfg1`. -/
def raw1 : RawConfig :=
  ⟨some 64, some 8, some 2, some 1, some 28, some false, some false, some false, some false⟩

/-- A constructible configuration whose 1 V supply is outside the 22 nm node's
supported voltage range. -/
def cfg22 : SRAMConfiguration := ⟨64, 8, 2, 1, 22, false, false, false, false⟩

/-- The raw field mapping of `cfg22`. -/
def raw22 : RawConfig :=
  ⟨some 64, some 8, some 2, some 1, some 22, some false, some false, some false, some false⟩

/-- `cfg1` with retention mode enabled. -/
def cfgRet : SRAMConfiguration := ⟨64, 8, 2, 1, 28, false, false, true, false⟩

/-- A template store holding one valid configuration. -/
def tmplA : Templates := some [("alpha", raw1)]

/-- A template store holding the out-of-range-voltage configuration. -/
def tmplB : Templates := some [("bad22", raw22)]

/-! ### Helper lemmas -/

lemma nodeParams_pos {n : ℕ} (h : supportedNode n = true) :
    0 < (nodeParams n).unit_bitcell_area ∧ 0 < (nodeParams n).leakage_density ∧
      0 < (nodeParams n).cap_density ∧ 0 < (nodeParams n).base_access ∧
      0 < (nodeParams n).margin := by
  simp only [supportedNode, Bool.or_eq_true, decide_eq_true_eq] at h
  rcases h with ((((rfl | rfl) | rfl) | rfl) | rfl) | rfl <;> norm_num [nodeParams]

lemma bitcellArea_pos {c : SRAMConfiguration} (hv : validConfig c) :
    0 < bitcellArea c := by
  obtain ⟨hd, hw, -, -, -, hn⟩ := hv
  have h1 : (0 : ℚ) < ((c.depth * c.width : ℕ) : ℚ) := by
    have : 1 ≤ c.depth * c.width := Nat.one_le_iff_ne_zero.mpr (by positivity)
    exact_mod_cast Nat.lt_of_lt_of_le Nat.zero_lt_one this
  exact mul_pos h1 (nodeParams_pos hn).1

lemma peripheryFactor_nonneg {c : SRAMConfiguration} (hb : 1 ≤ c.banks) :
    0 ≤ peripheryFactor c := by
  unfold peripheryFactor
  have h1 : (1 : ℚ) ≤ (c.banks : ℚ) := by exact_mod_cast hb
  have h2 : 1/(c.banks : ℚ) ≤ 1 := by
    rw [div_le_one (by linarith)]; exact h1
  have h3 : (0 : ℚ) ≤ (if c.ecc_enable then ((Nat.log2 c.width + 1 : ℕ) : ℚ) / (c.width : ℚ) else 0) := by
    split
    · positivity
    · exact le_refl 0
  nlinarith

lemma totalArea_pos {c : SRAMConfiguration} (hv : validConfig c) :
    0 < (estimate_area c).total_area_mm2 := by
  have hb := bitcellArea_pos hv
  have hf := peripheryFactor_nonneg hv.2.2.1
  simp only [estimate_area]
  nlinarith

lemma area_efficiency_eq {c : SRAMConfiguration} (hv : validConfig c) :
    (estimate_area c).area_efficiency = 1 / (1 + peripheryFactor c) := by
  have hb := bitcellArea_pos hv
  have hf : 0 < 1 + peripheryFactor c := by
    have := peripheryFactor_nonneg hv.2.2.1; linarith
  simp only [estimate_area]
  rw [show bitcellArea c + bitcellArea c * peripheryFactor c
      = bitcellArea c * (1 + peripheryFactor c) by ring]
  rw [div_eq_div_iff (by positivity) (ne_of_gt hf)]
  ring

lemma cycleTime_pos {c : SRAMConfiguration} (hv : validConfig c) :
    0 < cycleTime c := by
  obtain ⟨-, -, -, -, hvolt, hn⟩ := hv
  have hbase := (nodeParams_pos hn).2.2.2.1
  have hmargin := (nodeParams_pos hn).2.2.2.2
  unfold cycleTime accessTime
  have h1 : (0 : ℚ) ≤ (1/10) * ((Nat.sqrt (c.depth / c.banks) : ℕ) : ℚ) := by positivity
  have h2 : (0 : ℚ) ≤ (2/10) / c.voltage := by positivity
  have h3 : (0 : ℚ) ≤ (if c.ecc_enable then (2:ℚ)/10 else 0) := by
    split
    · norm_num
    · exact le_refl 0
  linarith

lemma maxFrequency_pos {c : SRAMConfiguration} (hv : validConfig c) :
    0 < maxFrequency c := by
  unfold maxFrequency
  exact div_pos (by norm_num) (cycleTime_pos hv)

lemma nominalStatic_pos {c : SRAMConfiguration} (hv : validConfig c) :
    0 < nominalStatic c := by
  unfold nominalStatic
  exact mul_pos (mul_pos (nodeParams_pos hv.2.2.2.2.2).2.1 (totalArea_pos hv)) hv.2.2.2.2.1

lemma estimate_power_ok {c : SRAMConfiguration} {af : ℚ} {est : PowerEstimate}
    (h : estimate_power c af = .ok est) :
    0 ≤ af ∧ af ≤ 1 ∧
      est = { dynamic_power_mw := dynPower c af, static_power_mw := statPower c,
              total_power_mw := dynPower c af + statPower c,
              retention_power_uw := retPower c } := by
  unfold estimate_power at h
  split at h
  · exact absurd h (by simp)
  · next hcond =>
    push_neg at hcond
    refine ⟨hcond.1, hcond.2, ?_⟩
    injection h with h
    exact h.symm

lemma estimate_power_in_range (c : SRAMConfiguration) {af : ℚ} (h0 : 0 ≤ af) (h1 : af ≤ 1) :
    estimate_power c af = .ok (powerRecord c af) := by
  unfold estimate_power powerRecord
  rw [if_neg (by push_neg; exact ⟨h0, h1⟩)]

lemma estimate_timing_in_range (c : SRAMConfiguration)
    (h : ¬(c.voltage < (nodeParams c.process_node).vmin ∨
        (nodeParams c.process_node).vmax < c.voltage)) :
    estimate_timing c = .ok (timingRecord c) := by
  unfold estimate_timing timingRecord
  rw [if_neg h]

lemma validConfig_cfg1 : validConfig cfg1 := by decide

lemma validConfig_cfg22 : validConfig cfg22 := by decide

lemma validConfig_cfgRet : validConfig cfgRet := by decide

/-! ### Claim theorems -/

/-- Claim C1: for every configuration and activity factor on which `estimate_power`
succeeds, the returned estimate satisfies
`total_power_mw = dynamic_power_mw + static_power_mw` exactly; the retention
figure is not part of the sum. -/
theorem total_power_is_dynamic_plus_static (c : SRAMConfiguration) (af : ℚ)
    (est : PowerEstimate) (h : estimate_power c af = .ok est) :
    est.total_power_mw = est.dynamic_power_mw + est.static_power_mw := by
  obtain ⟨-, -, rfl⟩ := estimate_power_ok h
  rfl

/-- Witness for C1 at the concrete configuration `cfg1` with activity 0. -/
theorem total_power_is_dynamic_plus_static_witness :
    estimate_power cfg1 0 = .ok (powerRecord cfg1 0) ∧
      (powerRecord cfg1 0).total_power_mw =
        (powerRecord cfg1 0).dynamic_power_mw + (powerRecord cfg1 0).static_power_mw :=
  ⟨estimate_power_in_range cfg1 (le_refl 0) (by norm_num),
    total_power_is_dynamic_plus_static cfg1 0 (powerRecord cfg1 0)
      (estimate_power_in_range cfg1 (le_refl 0) (by norm_num))⟩

/-- Claim C2: for every valid configuration the area efficiency lies in `(0,1]`,
and increasing the bank count with all other fields fixed strictly decreases
it. -/
theorem area_efficiency_spec (c : SRAMConfiguration) (b' : ℕ) (hv : validConfig c)
    (hb : c.banks < b') (hb' : b' ≤ c.depth) :
    (0 < (estimate_area c).area_efficiency ∧ (estimate_area c).area_efficiency ≤ 1) ∧
      (estimate_area {c with banks := b'}).area_efficiency <
        (estimate_area c).area_efficiency := by
  have hv' : validConfig {c with banks := b'} :=
    ⟨hv.1, hv.2.1, le_of_lt (lt_of_le_of_lt hv.2.2.1 hb), hb', hv.2.2.2.2.1, hv.2.2.2.2.2⟩
  have hf := peripheryFactor_nonneg hv.2.2.1
  have hf' := peripheryFactor_nonneg hv'.2.2.1
  have hmono : peripheryFactor c < peripheryFactor {c with banks := b'} := by
    have hb1 : (0 : ℚ) < (c.banks : ℚ) := by
      exact_mod_cast Nat.lt_of_lt_of_le Nat.zero_lt_one hv.2.2.1
    have hb2 : (c.banks : ℚ) < (b' : ℚ) := by exact_mod_cast hb
    have hinv : 1 / (b' : ℚ) < 1 / (c.banks : ℚ) :=
      one_div_lt_one_div_of_lt hb1 hb2
    unfold peripheryFactor
    simp only
    linarith
  rw [area_efficiency_eq hv, area_efficiency_eq hv']
  refine ⟨⟨by positivity, ?_⟩, ?_⟩
  · rw [div_le_one (by linarith)]; linarith
  · exact one_div_lt_one_div_of_lt (by linarith) (by linarith)

/-- Witness for C2 at the concrete configuration `cfg1`, raising the bank
count from 2 to 4. -/
theorem area_efficiency_spec_witness :
    validConfig cfg1 ∧ cfg1.banks < 4 ∧ 4 ≤ cfg1.depth ∧
      ((0 < (estimate_area cfg1).area_efficiency ∧
          (estimate_area cfg1).area_efficiency ≤ 1) ∧
        (estimate_area {cfg1 with banks := 4}).area_efficiency <
          (estimate_area cfg1).area_efficiency) :=
  ⟨validConfig_cfg1, by decide, by decide,
    area_efficiency_spec cfg1 4 validConfig_cfg1 (by decide) (by decide)⟩

/-- Claim C3: for every valid configuration on which `estimate_power` succeeds, the
retention figure is an explicit zero when retention mode is off, and strictly
positive yet strictly below `static_power_mw * 1000` when it is on. -/
theorem retention_power_spec (c : SRAMConfiguration) (af : ℚ) (est : PowerEstimate)
    (hv : validConfig c) (h : estimate_power c af = .ok est) :
    (c.retention_mode = false ∧ est.retention_power_uw = 0) ∨
      (c.retention_mode = true ∧ 0 < est.retention_power_uw ∧
        est.retention_power_uw < est.static_power_mw * 1000) := by
  obtain ⟨-, -, rfl⟩ := estimate_power_ok h
  have hnom := nominalStatic_pos hv
  cases hr : c.retention_mode with
  | false => exact Or.inl ⟨rfl, by simp [retPower, hr]⟩
  | true =>
    refine Or.inr ⟨rfl, ?_, ?_⟩
    · simp only [retPower, hr, if_true]
      positivity
    · simp only [retPower, statPower, hr, if_true]
      split <;> nlinarith

/-- Witness for C3 at the retention-enabled configuration `cfgRet`. -/
theorem retention_power_spec_witness :
    validConfig cfgRet ∧ estimate_power cfgRet 0 = .ok (powerRecord cfgRet 0) ∧
      ((cfgRet.retention_mode = false ∧ (powerRecord cfgRet 0).retention_power_uw = 0) ∨
        (cfgRet.retention_mode = true ∧ 0 < (powerRecord cfgRet 0).retention_power_uw ∧
          (powerRecord cfgRet 0).retention_power_uw <
            (powerRecord cfgRet 0).static_power_mw * 1000)) :=
  ⟨validConfig_cfgRet, estimate_power_in_range cfgRet (le_refl 0) (by norm_num),
    retention_power_spec cfgRet 0 (powerRecord cfgRet 0) validConfig_cfgRet
      (estimate_power_in_range cfgRet (le_refl 0) (by norm_num))⟩

/-- Claim C4: `estimate_power` fails with `InvalidActivityFactorError` exactly when
the activity factor lies outside `[0,1]`, and succeeds with a power estimate
exactly when it lies inside. -/
theorem invalid_activity_factor_iff (c : SRAMConfiguration) (af : ℚ) :
    (estimate_power c af = .error .invalidActivityFactor ↔ (af < 0 ∨ 1 < af)) ∧
      ((estimate_power c af).isOk = true ↔ (0 ≤ af ∧ af ≤ 1)) := by
  unfold estimate_power
  constructor
  · split
    · next hc => exact iff_of_true rfl hc
    · next hc => exact iff_of_false (by simp) hc
  · split
    · next hc =>
      refine iff_of_false (by simp [Except.isOk, Except.toBool]) ?_
      rintro ⟨h0, h1⟩
      rcases hc with hc | hc <;> linarith
    · next hc =>
      push_neg at hc
      exact iff_of_true (by simp [Except.isOk, Except.toBool]) hc

/-- Claim C5: `estimate_timing` refuses with `ModelRangeError` whenever the supply
voltage is outside the node's supported range, returning no estimate there. -/
theorem model_range_error_spec (c : SRAMConfiguration)
    (h : c.voltage < (nodeParams c.process_node).vmin ∨
        (nodeParams c.process_node).vmax < c.voltage) :
    estimate_timing c = .error .modelRange := by
  unfold estimate_timing
  rw [if_pos h]

/-- Witness for C5 at `cfg22`, whose 1 V supply exceeds the 22 nm node's
0.9 V upper bound. -/
theorem model_range_error_spec_witness :
    (cfg22.voltage < (nodeParams cfg22.process_node).vmin ∨
        (nodeParams cfg22.process_node).vmax < cfg22.voltage) ∧
      estimate_timing cfg22 = .error .modelRange :=
  ⟨by norm_num [cfg22, nodeParams], model_range_error_spec cfg22
    (by norm_num [cfg22, nodeParams])⟩

/-- Claim C6: configuration construction succeeds exactly when every required field
is present, the numeric fields are positive, `banks` does not exceed `depth`,
and the process node is in the supported-node table; otherwise it fails with a
`ConfigurationError` before any estimator can run. -/
theorem configuration_error_iff (r : RawConfig) :
    (mkConfiguration r).isOk = true ↔
      ((r.depth.isSome = true ∧ r.width.isSome = true ∧ r.banks.isSome = true ∧
          r.voltage.isSome = true ∧ r.process_node.isSome = true ∧
          r.power_gating.isSome = true ∧ r.clock_gating.isSome = true ∧
          r.retention_mode.isSome = true ∧ r.ecc_enable.isSome = true) ∧
        r.depth ≠ some 0 ∧ r.width ≠ some 0 ∧ r.banks ≠ some 0 ∧
        (∀ v, r.voltage = some v → 0 < v) ∧
        (∀ d b, r.depth = some d → r.banks = some b → b ≤ d) ∧
        (∀ n, r.process_node = some n → supportedNode n = true)) := by
  unfold mkConfiguration
  split
  · next hall =>
    obtain ⟨h1, h2, h3, h4, h5, h6, h7, h8, h9⟩ := hall
    obtain ⟨d, hd⟩ := Option.isSome_iff_exists.mp h1
    obtain ⟨w, hw⟩ := Option.isSome_iff_exists.mp h2
    obtain ⟨b, hb⟩ := Option.isSome_iff_exists.mp h3
    obtain ⟨v, hv⟩ := Option.isSome_iff_exists.mp h4
    obtain ⟨n, hn⟩ := Option.isSome_iff_exists.mp h5
    simp only [hd, hw, hb, hv, hn, Option.get_some, Option.isSome_some,
      ne_eq, Option.some.injEq, forall_eq']
    split_ifs with hz hv0 hbd hnode
    · simp only [Except.isOk, Except.toBool, Bool.false_eq_true, false_iff]
      intro hcon
      rcases hz with hz | hz | hz
      · exact hcon.2.1 hz
      · exact hcon.2.2.1 hz
      · exact hcon.2.2.2.1 hz
    · simp only [Except.isOk, Except.toBool, Bool.false_eq_true, false_iff]
      intro hcon
      exact absurd hcon.2.2.2.2.1 (not_lt.mpr hv0)
    · simp only [Except.isOk, Except.toBool, Bool.false_eq_true, false_iff]
      intro hcon
      have := hcon.2.2.2.2.2.1 d b rfl rfl
      omega
    · simp only [Except.isOk, Except.toBool, Bool.false_eq_true, false_iff]
      intro hcon
      have := hcon.2.2.2.2.2.2
      simp_all
    · simp only [Except.isOk, Except.toBool]
      push_neg at hz
      exact iff_of_true trivial ⟨⟨trivial, trivial, trivial, trivial, trivial, h6, h7, h8, h9⟩,
        hz.1, hz.2.1, hz.2.2, not_le.mp hv0,
        fun d1 b1 hd1 hb1 => hd1 ▸ hb1 ▸ not_lt.mp hbd, by simpa using hnode⟩
  · next hall =>
    simp only [Except.isOk, Except.toBool, Bool.false_eq_true, false_iff]
    intro hcon
    exact hall ⟨hcon.1.1, hcon.1.2.1, hcon.1.2.2.1, hcon.1.2.2.2.1, hcon.1.2.2.2.2.1,
      hcon.1.2.2.2.2.2.1, hcon.1.2.2.2.2.2.2.1, hcon.1.2.2.2.2.2.2.2.1,
      hcon.1.2.2.2.2.2.2.2.2⟩

/-- Claim C7: RTL generation is deterministic: identical configurations sent to any
two destinations produce identical artifact sets (names and contents). -/
theorem generate_verilog_deterministic (c : SRAMConfiguration) (d1 d2 : String) :
    (generate_verilog c d1).map Prod.snd = (generate_verilog c d2).map Prod.snd := by
  simp [generate_verilog, List.map_map, Function.comp_def]

/-- Claim C8: with everything else fixed, enabling power gating never increases
static power and enabling clock gating never increases dynamic power. -/
theorem gating_never_increases_power (c : SRAMConfiguration) (af : ℚ)
    (e0 e1 f0 f1 : PowerEstimate) (hv : validConfig c)
    (h0 : estimate_power {c with power_gating := false} af = .ok e0)
    (h1 : estimate_power {c with power_gating := true} af = .ok e1)
    (g0 : estimate_power {c with clock_gating := false} af = .ok f0)
    (g1 : estimate_power {c with clock_gating := true} af = .ok f1) :
    e1.static_power_mw ≤ e0.static_power_mw ∧
      f1.dynamic_power_mw ≤ f0.dynamic_power_mw := by
  obtain ⟨haf0, -, rfl⟩ := estimate_power_ok h0
  obtain ⟨-, -, rfl⟩ := estimate_power_ok h1
  obtain ⟨-, -, rfl⟩ := estimate_power_ok g0
  obtain ⟨-, -, rfl⟩ := estimate_power_ok g1
  have hnom : 0 < nominalStatic c := nominalStatic_pos hv
  have hcap := (nodeParams_pos hv.2.2.2.2.2).2.2.1
  have hfreq := maxFrequency_pos hv
  constructor
  · show nominalStatic c * ((3:ℚ)/10) ≤ nominalStatic c * 1
    nlinarith
  · show (nodeParams c.process_node).cap_density * ((c.width * c.banks : ℕ) : ℚ) *
        c.voltage ^ 2 * maxFrequency c * af * ((6:ℚ)/10) ≤
      (nodeParams c.process_node).cap_density * ((c.width * c.banks : ℕ) : ℚ) *
        c.voltage ^ 2 * maxFrequency c * af * 1
    have hA : 0 ≤ (nodeParams c.process_node).cap_density * ((c.width * c.banks : ℕ) : ℚ) *
        c.voltage ^ 2 * maxFrequency c * af :=
      mul_nonneg (mul_nonneg (mul_nonneg (mul_nonneg hcap.le (Nat.cast_nonneg _))
        (sq_nonneg _)) hfreq.le) haf0
    nlinarith

/-- Witness for C8 at `cfg1` with activity 0. -/
theorem gating_never_increases_power_witness :
    validConfig cfg1 ∧
      estimate_power {cfg1 with power_gating := false} 0 =
        .ok (powerRecord {cfg1 with power_gating := false} 0) ∧
      estimate_power {cfg1 with power_gating := true} 0 =
        .ok (powerRecord {cfg1 with power_gating := true} 0) ∧
      estimate_power {cfg1 with clock_gating := false} 0 =
        .ok (powerRecord {cfg1 with clock_gating := false} 0) ∧
      estimate_power {cfg1 with clock_gating := true} 0 =
        .ok (powerRecord {cfg1 with clock_gating := true} 0) ∧
      ((powerRecord {cfg1 with power_gating := true} 0).static_power_mw ≤
          (powerRecord {cfg1 with power_gating := false} 0).static_power_mw ∧
        (powerRecord {cfg1 with clock_gating := true} 0).dynamic_power_mw ≤
          (powerRecord {cfg1 with clock_gating := false} 0).dynamic_power_mw) :=
  ⟨validConfig_cfg1,
    estimate_power_in_range _ (le_refl 0) (by norm_num),
    estimate_power_in_range _ (le_refl 0) (by norm_num),
    estimate_power_in_range _ (le_refl 0) (by norm_num),
    estimate_power_in_range _ (le_refl 0) (by norm_num),
    gating_never_increases_power cfg1 0 _ _ _ _ validConfig_cfg1
      (estimate_power_in_range _ (le_refl 0) (by norm_num))
      (estimate_power_in_range _ (le_refl 0) (by norm_num))
      (estimate_power_in_range _ (le_refl 0) (by norm_num))
      (estimate_power_in_range _ (le_refl 0) (by norm_num))⟩

lemma isOk_exists {ε α : Type} {x : Except ε α} (h : x.isOk = true) : ∃ a, x = .ok a := by
  cases x with
  | error e => simp [Except.isOk, Except.toBool] at h
  | ok a => exact ⟨a, rfl⟩

lemma buildEntry_name {n : String} {raw : RawConfig} {e : ComparisonEntry}
    (h : buildEntry n raw = .ok e) : e.config_name = n := by
  unfold buildEntry at h
  split at h
  · exact absurd h (by simp)
  · split at h
    · exact absurd h (by simp)
    · split at h
      · exact absurd h (by simp)
      · injection h with h
        rw [← h]

lemma report_cons (tmpl : Templates) (n : String) (ns : List String) :
    generate_comparison_report tmpl (n :: ns) =
      match rawOf tmpl n with
      | none => generate_comparison_report tmpl ns
      | some raw =>
        match buildEntry n raw with
        | .error e => .error e
        | .ok entry =>
          match generate_comparison_report tmpl ns with
          | .error e => .error e
          | .ok es => .ok (entry :: es) := rfl

/-- Claim C9: when the template file is missing or a name has no template,
`create_config_file` returns `none`; `generate_comparison_report` skips
exactly those names, and (when every present template succeeds) reports over
the remaining configurations in order. -/
theorem comparison_report_skips (tmpl : Templates) (output_dir : String)
    (names : List String) (n0 : String)
    (h : ∀ n ∈ names, ((rawOf tmpl n).all (fun raw => (buildEntry n raw).isOk)) = true) :
    (create_config_file tmpl n0 output_dir = none ↔ rawOf tmpl n0 = none) ∧
      generate_comparison_report tmpl names = .ok (expectedEntries tmpl names) ∧
      (expectedEntries tmpl names).map ComparisonEntry.config_name =
        names.filter (fun n => (rawOf tmpl n).isSome) := by
  refine ⟨?_, ?_⟩
  · unfold create_config_file
    cases rawOf tmpl n0 <;> simp
  · induction names with
    | nil => exact ⟨rfl, rfl⟩
    | cons n ns ih =>
      have hn := h n (List.mem_cons_self n ns)
      have hns := fun m hm => h m (List.mem_cons_of_mem n hm)
      obtain ⟨hrep, hmap⟩ := ih hns
      cases hr : rawOf tmpl n with
      | none =>
        have e1 : generate_comparison_report tmpl (n :: ns) =
            generate_comparison_report tmpl ns := by
          simp only [report_cons, hr]
        have e2 : expectedEntries tmpl (n :: ns) = expectedEntries tmpl ns := by
          unfold expectedEntries
          rw [List.filterMap_cons, hr]
          rfl
        rw [e1, e2, hrep, hmap, List.filter_cons, hr]
        simp
      | some raw =>
        rw [hr] at hn
        simp only [Option.all] at hn
        obtain ⟨e, he⟩ := isOk_exists hn
        have e1 : generate_comparison_report tmpl (n :: ns) =
            .ok (e :: expectedEntries tmpl ns) := by
          simp only [report_cons, hr, he, hrep]
        have e2 : expectedEntries tmpl (n :: ns) = e :: expectedEntries tmpl ns := by
          unfold expectedEntries
          rw [List.filterMap_cons, hr]
          simp [he, Except.toOption]
        rw [e1, e2, List.filter_cons, hr]
        simp only [List.map_cons, hmap, Option.isSome_some, if_true]
        rw [buildEntry_name he]
        exact ⟨trivial, rfl⟩

/-- Witness for C9: a store with one valid template, queried with one present
and one missing name. -/
theorem comparison_report_skips_witness :
    (∀ n ∈ ["alpha", "missing"],
        ((rawOf tmplA n).all (fun raw => (buildEntry n raw).isOk)) = true) ∧
      ((create_config_file tmplA "missing" "out" = none ↔ rawOf tmplA "missing" = none) ∧
        generate_comparison_report tmplA ["alpha", "missing"] =
          .ok (expectedEntries tmplA ["alpha", "missing"]) ∧
        (expectedEntries tmplA ["alpha", "missing"]).map ComparisonEntry.config_name =
          ["alpha", "missing"].filter (fun n => (rawOf tmplA n).isSome)) := by
  have h : ∀ n ∈ ["alpha", "missing"],
      ((rawOf tmplA n).all (fun raw => (buildEntry n raw).isOk)) = true := by
    intro n hn
    simp only [List.mem_cons, List.not_mem_nil, or_false] at hn
    rcases hn with rfl | rfl
    · show ((rawOf tmplA "alpha").all (fun raw => (buildEntry "alpha" raw).isOk)) = true
      norm_num [rawOf, tmplA, List.lookup, Option.all, buildEntry, mkConfiguration,
        raw1, supportedNode, estimate_power, estimate_timing, defaultActivityFactor,
        nodeParams, Except.isOk, Except.toBool]
    · show ((rawOf tmplA "missing").all (fun raw => (buildEntry "missing" raw).isOk)) = true
      decide
  exact ⟨h, comparison_report_skips tmplA "out" ["alpha", "missing"] "missing" h⟩

/-- Claim C10, amended: whenever the single-configuration path of `main` resolves
its configuration and runs to completion without an error, the files written
include the design report `<config>_report.md` in the output directory,
regardless of the analysis flags. -/
theorem main_writes_report (tmpl : Templates) (arg : ConfigArg) (output_dir : String)
    (gv pa aa : Bool) (s : String) (raw : RawConfig) (created files : List String)
    (hres : resolveConfig tmpl output_dir arg = some (s, raw, created))
    (hrun : mainSingle tmpl arg output_dir gv pa aa = (files, none)) :
    (output_dir ++ "/" ++ s ++ "_report.md") ∈ files := by
  unfold mainSingle at hrun
  rw [hres] at hrun
  dsimp only at hrun
  cases hm : mkConfiguration raw with
  | error e =>
    rw [hm] at hrun
    simp at hrun
  | ok cfg =>
    rw [hm] at hrun
    dsimp only at hrun
    split at hrun
    · simp at hrun
    · split at hrun
      · simp at hrun
      · rw [Prod.mk.injEq] at hrun
        obtain ⟨h1, -⟩ := hrun
        rw [← h1]
        simp

lemma mk_raw22 : mkConfiguration raw22 = .ok cfg22 := by
  norm_num [mkConfiguration, raw22, cfg22, supportedNode]

lemma mk_raw1 : mkConfiguration raw1 = .ok cfg1 := by
  norm_num [mkConfiguration, raw1, cfg1, supportedNode]

lemma timing_cfg22 : estimate_timing cfg22 = .error .modelRange := by
  unfold estimate_timing
  rw [if_pos]
  norm_num [cfg22, nodeParams]

lemma timing_cfg1 : estimate_timing cfg1 = .ok (timingRecord cfg1) :=
  estimate_timing_in_range cfg1 (by norm_num [cfg1, nodeParams])

lemma resolve_bad : resolveConfig tmplB "out" (.template "bad22") =
    some ("bad22", raw22, ["out/bad22_config.json"]) := by decide

lemma resolve_alpha : resolveConfig tmplA "out" (.template "alpha") =
    some ("alpha", raw1, ["out/alpha_config.json"]) := by decide

lemma mainSingle_bad : mainSingle tmplB (.template "bad22") "out" false false true =
    (["out/bad22_config.json"], some (.modelError .modelRange)) := by
  unfold mainSingle
  rw [resolve_bad]
  simp only [mk_raw22, timing_cfg22, Bool.false_eq_true, false_and, if_false]
  decide

/-- The files written by a successful full run on the `alpha` template. -/
def goodFiles : List String :=
  ["out/alpha_config.json", "out/power_analysis.json",
    "out/area_timing_analysis.json", "out/alpha_report.md"]

lemma power_all_ok_cfg1 :
    ([(1:ℚ)/100, 5/100, 1/10, 2/10, 1/2].all
      (fun a => (estimate_power cfg1 a).isOk)) = true := by
  simp only [List.all_cons, List.all_nil, Bool.and_eq_true]
  refine ⟨?_, ?_, ?_, ?_, ?_, trivial⟩ <;>
    norm_num [estimate_power, Except.isOk, Except.toBool]

lemma mainSingle_good : mainSingle tmplA (.template "alpha") "out" false true true =
    (goodFiles, none) := by
  unfold mainSingle
  rw [resolve_alpha]
  simp only [mk_raw1, timing_cfg1, power_all_ok_cfg1]
  decide

/-- Counterexample to claim C10 as stated: on the `bad22` template (constructible configuration,
out-of-range voltage) with only `--area-analysis` set, `main` reaches the
processing stage yet aborts in the analysis and never writes the design
report. -/
theorem main_report_not_written :
    resolveConfig tmplB "out" (.template "bad22") =
        some ("bad22", raw22, ["out/bad22_config.json"]) ∧
      (mkConfiguration raw22).isOk = true ∧
      (mainSingle tmplB (.template "bad22") "out" false false true).2 ≠ none ∧
      ("out" ++ "/" ++ "bad22" ++ "_report.md") ∉
        (mainSingle tmplB (.template "bad22") "out" false false true).1 := by
  refine ⟨resolve_bad, by rw [mk_raw22]; rfl, ?_, ?_⟩
  · rw [mainSingle_bad]
    simp
  · rw [mainSingle_bad]
    decide

/-- Witness for the amended C10 on the `alpha` template with power and area
analysis requested. -/
theorem main_writes_report_witness :
    resolveConfig tmplA "out" (.template "alpha") =
        some ("alpha", raw1, ["out/alpha_config.json"]) ∧
      mainSingle tmplA (.template "alpha") "out" false true true = (goodFiles, none) ∧
      ("out" ++ "/" ++ "alpha" ++ "_report.md") ∈ goodFiles :=
  ⟨resolve_alpha, mainSingle_good,
    main_writes_report tmplA (.template "alpha") "out" false true true "alpha" raw1
      ["out/alpha_config.json"] goodFiles resolve_alpha mainSingle_good⟩

end SRAM
